import Mathlib

/-!
Shallow embedding of the Pomodoro timer core from `pomodoro_simchn.pyw`.

The program is a Tkinter application; the timer core consists of the
formatting helpers `fmt_mm_ss` / `fmt_progress`, the settings reader
`_read_settings`, the single start/pause/resume entry point
`on_start_pause_resume`, `on_reset`, the phase-transition helpers
`_enter_study` / `_enter_break` / `_advance_phase`, and the periodic
heartbeat `_heartbeat`.

Modelling decisions:
* `time.monotonic()` values are rationals (`ℚ`); Python's `round`
  (round half to even) is embedded as `pyRound`.
* The widget texts that the code writes through
  `_render_bottom_dynamic` / `_update_bottom_with_left` /
  `_render_bottom_static` are recorded structurally: the arguments the
  code passes to `fmt_progress` are kept in `bottom_num` / `bottom_den`
  and the countdown text in `bottom_time`; the status line text is in
  `lbl_status` and the Start button caption in `btn_text`.
* The raw entry strings are modelled at the point after Python's
  `int(...)` call: each field of `RawSettings` is `some v` when the
  entry parses as the integer `v` and `none` when `int(...)` raises.
* Calls to `play_sound_async` are counted in the `alerts` field, and
  the error message boxes shown by `_read_settings` are surfaced as a
  boolean in the return value of `on_start_pause_resume`.
-/


namespace Pomodoro

/-- Python's `round` on a rational: round half to even, result an integer. -/
def pyRound (x : ℚ) : ℤ :=
  let f := ⌊x⌋
  let r := x - f
  if r < 1/2 then f
  else if 1/2 < r then f + 1
  else if f % 2 = 0 then f else f + 1

/-- Python's `f"{n:02d}"` for a nonnegative integer: decimal digits,
zero-padded on the left to a minimum width of two. -/
def pad2 (n : Nat) : String :=
  if n < 10 then "0" ++ toString n else toString n

/-- `fmt_mm_ss` from the source: clamp negatives to 0, then
`divmod(sec, 60)` and format both fields with `{:02d}`. -/
def fmt_mm_ss (sec : Int) : String :=
  let sec := if sec < 0 then 0 else sec
  let m := sec / 60
  let s := sec % 60
  pad2 m.toNat ++ ":" ++ pad2 s.toNat

/-- `fmt_progress` from the source: clamp both arguments at 0 and
format both with `{:02d}`, separated by a slash. -/
def fmt_progress (n : Int) (d : Int) : String :=
  let n := max 0 n
  let d := max 0 d
  pad2 n.toNat ++ "/" ++ pad2 d.toNat

/-- The three values of `self.mode` in the source: `"idle"`, `"study"`,
`"break"` (`break'` because `break` is reserved in Lean). -/
inductive Mode where
  | idle
  | study
  | break'
deriving DecidableEq

/-- The mutable application state relevant to the timer core: the
runtime fields set up in `PomodoroApp.__init__` plus the displayed
texts (see the module comment for how rendering is recorded). -/
structure AppState where
  total_sessions : Int
  done_pomodoros : Int
  mode : Mode
  paused : Bool
  paused_left : Int
  status_before_pause : String
  lbl_status : String
  pomo_min : Int
  short_min : Int
  long_min : Int
  phase_end_monot : ℚ
  btn_text : String
  bottom_num : Int
  bottom_den : Int
  bottom_time : String
  alerts : Nat
deriving DecidableEq

/-- The entry fields as they stand after Python's `int(...)` calls:
`some v` when the text parses as integer `v`, `none` when it raises. -/
structure RawSettings where
  sessions : Option Int
  pomo_min : Option Int
  short_min : Option Int
  long_min : Option Int
deriving DecidableEq

/-- `_read_settings`: parse the four entries (any failure aborts),
then require `1 <= s <= 20` and all three durations positive. -/
def read_settings (r : RawSettings) : Option (Int × Int × Int × Int) :=
  match r.sessions, r.pomo_min, r.short_min, r.long_min with
  | some s, some p, some sb, some lb =>
    if ¬ (1 ≤ s ∧ s ≤ 20) then none
    else if p ≤ 0 ∨ sb ≤ 0 ∨ lb ≤ 0 then none
    else some (s, p, sb, lb)
  | _, _, _, _ => none

/-- The initial runtime state set in `PomodoroApp.__init__` (the bottom
line is initialised to `fmt_progress(0,0)` and `00:00`). -/
def init : AppState :=
  { total_sessions := 0
    done_pomodoros := 0
    mode := Mode.idle
    paused := false
    paused_left := 0
    status_before_pause := "READY"
    lbl_status := "READY"
    pomo_min := 25
    short_min := 5
    long_min := 15
    phase_end_monot := 0
    btn_text := "Start"
    bottom_num := 0
    bottom_den := 0
    bottom_time := "00:00"
    alerts := 0 }

/-- `_update_bottom_with_left`: numerator is `done_pomodoros` plus one
exactly in study mode; denominator is `total_sessions`. -/
def update_bottom_with_left (s : AppState) (left : Int) : AppState :=
  { s with
    bottom_num := s.done_pomodoros + (if s.mode = Mode.study then 1 else 0)
    bottom_den := s.total_sessions
    bottom_time := fmt_mm_ss left }

/-- `_enter_study`: mode `"study"`, deadline `now + pomo_min*60`,
clear paused, render `done_pomodoros+1` over `total_sessions`. -/
def enter_study (s : AppState) (now : ℚ) : AppState :=
  let dur : Int := s.pomo_min * 60
  { s with
    mode := Mode.study
    lbl_status := "STUDY"
    status_before_pause := "STUDY"
    phase_end_monot := now + (dur : ℚ)
    paused := false
    bottom_num := s.done_pomodoros + 1
    bottom_den := s.total_sessions
    bottom_time := fmt_mm_ss dur }

/-- `_enter_break`: long break iff `done_pomodoros % 5 == 0`, else
short; deadline `now + dur`; render `done_pomodoros` over
`total_sessions`. -/
def enter_break (s : AppState) (now : ℚ) : AppState :=
  let dur : Int := (if s.done_pomodoros % 5 = 0 then s.long_min else s.short_min) * 60
  { s with
    mode := Mode.break'
    lbl_status := "BREAK"
    status_before_pause := "BREAK"
    phase_end_monot := now + (dur : ℚ)
    paused := false
    bottom_num := s.done_pomodoros
    bottom_den := s.total_sessions
    bottom_time := fmt_mm_ss dur }

/-- `_advance_phase`: from study, increment `done_pomodoros`; at or
above `total_sessions` go idle (render `done`/`total` and `00:00`),
otherwise enter a break; from break enter study; otherwise no-op. -/
def advance_phase (s : AppState) (now : ℚ) : AppState :=
  if s.mode = Mode.study then
    let s1 := { s with done_pomodoros := s.done_pomodoros + 1 }
    if s1.total_sessions ≤ s1.done_pomodoros then
      { s1 with
        mode := Mode.idle
        lbl_status := "READY"
        status_before_pause := "READY"
        bottom_num := s1.done_pomodoros
        bottom_den := s1.total_sessions
        bottom_time := "00:00"
        btn_text := "Start" }
    else enter_break s1 now
  else if s.mode = Mode.break' then enter_study s now
  else s

/-- `_heartbeat` without the date-line update: in study/break, when
paused redraw with the frozen value; otherwise compute
`left = round(deadline - now)`; at `left <= 0` play the sound (counted
in `alerts`) and advance the phase, else redraw with `left`. -/
def heartbeat (s : AppState) (now : ℚ) : AppState :=
  if s.mode = Mode.study ∨ s.mode = Mode.break' then
    if s.paused then
      update_bottom_with_left s s.paused_left
    else
      let left := pyRound (s.phase_end_monot - now)
      if left ≤ 0 then
        advance_phase { s with alerts := s.alerts + 1 } now
      else
        update_bottom_with_left s left
  else s

/-- The `not self.paused` branch of `on_start_pause_resume` (guarded
only by `mode in ("study","break")`): freeze
`max(0, round(deadline - now))`, set paused, show `PAUSE`. -/
def pause_branch (s : AppState) (now : ℚ) : AppState :=
  if s.mode = Mode.study ∨ s.mode = Mode.break' then
    { s with
      paused_left := max 0 (pyRound (s.phase_end_monot - now))
      paused := true
      status_before_pause := if s.mode = Mode.study then "STUDY" else "BREAK"
      lbl_status := "PAUSE"
      btn_text := "Resume" }
  else s

/-- The `else` (paused) branch of `on_start_pause_resume` (guarded only
by `mode in ("study","break")`): deadline `now + paused_left`, clear
paused, restore the pre-pause status text. -/
def resume_branch (s : AppState) (now : ℚ) : AppState :=
  if s.mode = Mode.study ∨ s.mode = Mode.break' then
    { s with
      phase_end_monot := now + (s.paused_left : ℚ)
      paused := false
      lbl_status := s.status_before_pause
      btn_text := "Pause" }
  else s

/-- `on_start_pause_resume`: from idle, read the settings (returning
the unchanged state and an error flag when invalid), else install the
configuration, zero `done_pomodoros` and enter study; otherwise pause
when not paused and resume when paused. The boolean records whether an
error box was shown. -/
def on_start_pause_resume (s : AppState) (r : RawSettings) (now : ℚ) :
    AppState × Bool :=
  if s.mode = Mode.idle then
    match read_settings r with
    | none => (s, true)
    | some (t, p, sb, lb) =>
      let s1 := { s with
        total_sessions := t
        pomo_min := p
        short_min := sb
        long_min := lb
        done_pomodoros := 0
        paused := false }
      ({ enter_study s1 now with btn_text := "Pause" }, false)
  else if s.paused = false then (pause_branch s now, false)
  else (resume_branch s now, false)

/-- `on_reset`: when `total_sessions <= 0` re-read the settings (keeping
the old configuration when invalid); then force idle, clear paused,
zero `done_pomodoros` and render `00/total` with `00:00`. -/
def on_reset (s : AppState) (r : RawSettings) : AppState :=
  let s0 :=
    if s.total_sessions ≤ 0 then
      match read_settings r with
      | some (t, p, sb, lb) =>
        { s with total_sessions := t, pomo_min := p, short_min := sb, long_min := lb }
      | none => s
    else s
  { s0 with
    mode := Mode.idle
    paused := false
    done_pomodoros := 0
    lbl_status := "READY"
    status_before_pause := "READY"
    bottom_num := 0
    bottom_den := s0.total_sessions
    bottom_time := "00:00"
    btn_text := "Start" }

/-- The remaining seconds of the active phase as the heartbeat and the
pause branch compute them, clamped at zero: `max(0, round(deadline - now))`. -/
def remaining (s : AppState) (now : ℚ) : ℤ :=
  max 0 (pyRound (s.phase_end_monot - now))

/-- The RunState portion of the application state: mode, paused flag,
completed-session count, phase deadline, frozen remaining value and the
stored configuration (everything except rendering and the alert count). -/
def run_of (s : AppState) : Mode × Bool × Int × ℚ × Int × Int × Int × Int × Int :=
  (s.mode, s.paused, s.done_pomodoros, s.phase_end_monot, s.paused_left,
   s.total_sessions, s.pomo_min, s.short_min, s.long_min)

/-- States reachable from the initial state through the program's entry
points: the Start/Pause/Resume button, the Reset button, and the
periodic heartbeat, at arbitrary instants and with arbitrary entry
texts. -/
inductive Reachable : AppState → Prop where
  | init : Reachable init
  | button {s : AppState} (r : RawSettings) (now : ℚ) :
      Reachable s → Reachable (on_start_pause_resume s r now).1
  | reset {s : AppState} (r : RawSettings) :
      Reachable s → Reachable (on_reset s r)
  | tick {s : AppState} (now : ℚ) :
      Reachable s → Reachable (heartbeat s now)

/-- Inductive invariant of the reachable states: counters in range and
configuration durations positive; a non-idle mode forces
`done_pomodoros < total_sessions`. -/
def Inv (s : AppState) : Prop :=
  0 ≤ s.done_pomodoros ∧ 0 ≤ s.total_sessions ∧
  s.done_pomodoros ≤ s.total_sessions ∧
  0 < s.pomo_min ∧ 0 < s.short_min ∧ 0 < s.long_min ∧
  (s.mode ≠ Mode.idle → s.done_pomodoros < s.total_sessions)

/-- Inductive invariant of the rendered progress line: the denominator
tracks `total_sessions` and the numerator is `done_pomodoros + 1` in
study mode and `done_pomodoros` in break mode. -/
def DisplayInv (s : AppState) : Prop :=
  s.bottom_den = s.total_sessions ∧
  (s.mode = Mode.study → s.bottom_num = s.done_pomodoros + 1) ∧
  (s.mode = Mode.break' → s.bottom_num = s.done_pomodoros)

/-- A valid parsed settings input: the program's default entries
(12 sessions, 25/5/15 minutes). -/
def raw12 : RawSettings := ⟨some 12, some 25, some 5, some 15⟩

/-- An invalid parsed settings input: `sessionCount = 0` is outside `[1,20]`. -/
def rawBad : RawSettings := ⟨some 0, some 25, some 5, some 15⟩

/-- A minimal valid settings input: one session of one minute, one-minute breaks. -/
def raw11 : RawSettings := ⟨some 1, some 1, some 1, some 1⟩

/-- The state after pressing Start in the initial state with the default
settings at instant 0: a running study phase with deadline 1500. -/
def sRun : AppState := (on_start_pause_resume init raw12 0).1

/-- The state after pressing Start in the initial state with the
one-session-one-minute settings at instant 0. -/
def sOne : AppState := (on_start_pause_resume init raw11 0).1

/-- The state after pressing the button again at instant 0 from `sRun`:
a paused study phase with frozen remaining 1500. -/
def sP : AppState := (on_start_pause_resume sRun raw12 0).1



theorem pyRound_intCast (n : ℤ) : pyRound ((n : ℚ)) = n := by
  simp [pyRound, Int.floor_intCast, sub_self, one_half_pos]

theorem pyRound_zero : pyRound (0 : ℚ) = 0 := by
  simpa using pyRound_intCast 0

theorem pyRound_add_sub (now : ℚ) (d : ℤ) : pyRound (now + (d : ℚ) - now) = d := by
  rw [add_sub_cancel_left]; exact pyRound_intCast d

theorem pyRound_zero_sup (x : ℤ) : pyRound ((0:ℚ) ⊔ (x:ℚ)) = (0:ℤ) ⊔ x := by
  have h : ((0:ℚ) ⊔ (x:ℚ)) = (((0 ⊔ x : ℤ)) : ℚ) := by norm_cast
  rw [h, pyRound_intCast]

theorem tick_guard_eq {s : AppState} {now : ℚ} (h : s.phase_end_monot = now) :
    pyRound (s.phase_end_monot - now) ≤ 0 := by
  rw [h, sub_self, pyRound_zero]

theorem read_settings_sound {r : RawSettings} {t p sb lb : Int}
    (h : read_settings r = some (t, p, sb, lb)) :
    1 ≤ t ∧ t ≤ 20 ∧ 0 < p ∧ 0 < sb ∧ 0 < lb := by
  rcases r with ⟨os, op, osb, olb⟩
  cases os <;> cases op <;> cases osb <;> cases olb <;>
    simp_all [read_settings] <;> omega

-- evaluation of a concrete read
theorem sRun_mode : sRun.mode = Mode.study := rfl
theorem sRun_phase_end : sRun.phase_end_monot = 1500 := by
  simp [sRun, on_start_pause_resume, read_settings, raw12, init, enter_study]



theorem inv_init : Inv init := by
  simp [Inv, init]

theorem inv_button {s : AppState} (hs : Inv s) (r : RawSettings) (now : ℚ) :
    Inv (on_start_pause_resume s r now).1 := by
  obtain ⟨h1, h2, h3, h4, h5, h6, h7⟩ := hs
  unfold on_start_pause_resume
  split
  · -- idle: start
    cases hr : read_settings r with
    | none => simp [Inv]; exact ⟨h1, h2, h3, h4, h5, h6, h7⟩
    | some q =>
      obtain ⟨t, p, sb, lb⟩ := q
      have hv := read_settings_sound hr
      simp [Inv, enter_study]
      omega
  · -- not idle: pause or resume branch
    split
    · unfold pause_branch
      split <;> simp [Inv] <;> exact ⟨h1, h2, h3, h4, h5, h6, h7⟩
    · unfold resume_branch
      split <;> simp [Inv] <;> exact ⟨h1, h2, h3, h4, h5, h6, h7⟩



theorem inv_reset {s : AppState} (hs : Inv s) (r : RawSettings) :
    Inv (on_reset s r) := by
  obtain ⟨h1, h2, h3, h4, h5, h6, h7⟩ := hs
  unfold on_reset
  split
  · cases hr : read_settings r with
    | none => simp [Inv]; omega
    | some q =>
      obtain ⟨t, p, sb, lb⟩ := q
      have hv := read_settings_sound hr
      simp [Inv]
      omega
  · simp [Inv]; omega

theorem inv_tick {s : AppState} (hs : Inv s) (now : ℚ) :
    Inv (heartbeat s now) := by
  obtain ⟨h1, h2, h3, h4, h5, h6, h7⟩ := hs
  unfold heartbeat
  split
  case isTrue hrun =>
    split
    · simp [Inv, update_bottom_with_left]
      exact ⟨h1, h2, h3, h4, h5, h6, h7⟩
    · dsimp only
      split
      · -- advance
        have hlt : s.done_pomodoros < s.total_sessions := by
          apply h7; rcases hrun with h | h <;> simp [h]
        unfold advance_phase
        split
        case isTrue hst =>
          dsimp only
          split
          · simp [Inv]; omega
          · simp [Inv, enter_break]; omega
        case isFalse hst =>
          split
          · simp [Inv, enter_study]; omega
          · simp [Inv]; exact ⟨h1, h2, h3, h4, h5, h6, h7⟩
      · simp [Inv, update_bottom_with_left]
        exact ⟨h1, h2, h3, h4, h5, h6, h7⟩
  case isFalse hrun =>
    exact ⟨h1, h2, h3, h4, h5, h6, h7⟩

theorem reachable_inv {s : AppState} (h : Reachable s) : Inv s := by
  induction h with
  | init => exact inv_init
  | button r now _ ih => exact inv_button ih r now
  | reset r _ ih => exact inv_reset ih r
  | tick now _ ih => exact inv_tick ih now



theorem disp_init : DisplayInv init := by
  simp [DisplayInv, init]

theorem disp_button {s : AppState} (hs : DisplayInv s) (r : RawSettings) (now : ℚ) :
    DisplayInv (on_start_pause_resume s r now).1 := by
  obtain ⟨h1, h2, h3⟩ := hs
  unfold on_start_pause_resume
  split
  · cases hr : read_settings r with
    | none => exact ⟨h1, h2, h3⟩
    | some q =>
      obtain ⟨t, p, sb, lb⟩ := q
      simp [DisplayInv, enter_study]
  · split
    · unfold pause_branch
      split <;> simp_all [DisplayInv]
    · unfold resume_branch
      split <;> simp_all [DisplayInv]

theorem disp_reset {s : AppState} (hs : DisplayInv s) (r : RawSettings) :
    DisplayInv (on_reset s r) := by
  unfold on_reset
  split
  · cases hr : read_settings r with
    | none => simp [DisplayInv]
    | some q => obtain ⟨t, p, sb, lb⟩ := q; simp [DisplayInv]
  · simp [DisplayInv]

theorem disp_tick {s : AppState} (hs : DisplayInv s) (now : ℚ) :
    DisplayInv (heartbeat s now) := by
  obtain ⟨h1, h2, h3⟩ := hs
  unfold heartbeat
  split
  case isTrue hrun =>
    split
    · simp_all [DisplayInv, update_bottom_with_left]
    · dsimp only
      split
      · unfold advance_phase
        split
        case isTrue hst =>
          dsimp only
          split
          · simp [DisplayInv]
          · simp [DisplayInv, enter_break]
        case isFalse hst =>
          split
          · simp [DisplayInv, enter_study]
          · exact ⟨h1, h2, h3⟩
      · simp_all [DisplayInv, update_bottom_with_left]
  case isFalse hrun =>
    exact ⟨h1, h2, h3⟩

theorem reachable_disp {s : AppState} (h : Reachable s) : DisplayInv s := by
  induction h with
  | init => exact disp_init
  | button r now _ ih => exact disp_button ih r now
  | reset r _ ih => exact disp_reset ih r
  | tick now _ ih => exact disp_tick ih now



/-- Claim C1: in a running study phase whose remaining time has reached
zero, the tick enters a break whose duration is `longBreakMinutes*60`
seconds iff the 1-indexed count `k = done_pomodoros + 1` of the study
session just completed satisfies `k % 5 = 0` and `shortBreakMinutes*60`
otherwise (the new deadline is `now + duration`); and when the
completed-session count reaches `total_sessions` the tick transitions
to idle, not to a break. -/
theorem claim1_break_cadence (s : AppState) (now : ℚ)
    (hmode : s.mode = Mode.study) (hpause : s.paused = false)
    (hdue : pyRound (s.phase_end_monot - now) ≤ 0) :
    (s.done_pomodoros + 1 < s.total_sessions →
      (heartbeat s now).mode = Mode.break' ∧
      (heartbeat s now).phase_end_monot =
        now + (((if (s.done_pomodoros + 1) % 5 = 0 then s.long_min else s.short_min) * 60 : ℤ) : ℚ)) ∧
    (s.total_sessions ≤ s.done_pomodoros + 1 →
      (heartbeat s now).mode = Mode.idle) := by
  constructor
  · intro hlt
    have h1 : ¬ (s.total_sessions ≤ s.done_pomodoros + 1) := by omega
    simp [heartbeat, advance_phase, enter_break, hmode, hpause, hdue, h1]
  · intro hge
    simp [heartbeat, advance_phase, hmode, hpause, hdue, hge]

/-- Claim C2: a settings input is rejected by `read_settings` exactly
when it is invalid (some field fails to parse as an integer, or the
session count is outside `[1,20]`, or a duration is non-positive), and
starting from idle with any rejected input reports the error and
returns the state completely unchanged. -/
theorem claim2_invalid_config (s : AppState) (r : RawSettings) (now : ℚ)
    (hidle : s.mode = Mode.idle) :
    (read_settings r = none ↔
      ∀ t p sb lb : Int, r = ⟨some t, some p, some sb, some lb⟩ →
        ¬ (1 ≤ t ∧ t ≤ 20 ∧ 0 < p ∧ 0 < sb ∧ 0 < lb)) ∧
    (read_settings r = none → on_start_pause_resume s r now = (s, true)) := by
  constructor
  · constructor
    · intro hn t p sb lb hr hv
      subst hr
      simp [read_settings] at hn
      omega
    · intro hall
      rcases r with ⟨os, op, osb, olb⟩
      cases os <;> cases op <;> cases osb <;> cases olb <;> simp [read_settings]
      case some.some.some.some t p sb lb =>
        have := hall t p sb lb rfl
        omega
  · intro hn
    unfold on_start_pause_resume
    rw [if_pos hidle, hn]



/-- Claim C3: pressing the button in a running phase at `now1` (pause)
freezes exactly the remaining seconds at `now1`, and pressing it again
at any later `now2` (resume) un-pauses and restores exactly that frozen
remaining value at `now2`: the pause interval neither loses nor gains
time. -/
theorem claim3_round_trip (s : AppState) (r1 r2 : RawSettings) (now1 now2 : ℚ)
    (hmode : s.mode = Mode.study ∨ s.mode = Mode.break')
    (hpause : s.paused = false) (hle : now1 ≤ now2) :
    ((on_start_pause_resume s r1 now1).1.paused_left = remaining s now1) ∧
    ((on_start_pause_resume (on_start_pause_resume s r1 now1).1 r2 now2).1.paused = false) ∧
    (remaining (on_start_pause_resume (on_start_pause_resume s r1 now1).1 r2 now2).1 now2
      = remaining s now1) := by
  rcases hmode with h | h <;>
    simp [on_start_pause_resume, pause_branch, resume_branch, remaining, h, hpause,
      pyRound_intCast, pyRound_zero_sup, ← max_assoc]

/-- Claim C6: a tick emits the audible alert (one `play_sound_async`
call, counted by `alerts`) iff the state is a running, un-paused phase
whose clamped remaining time is zero at that tick — this is the tick
that observes the remaining time having transitioned from positive to
zero, and it includes the final completing tick (the phase that is
entered at a boundary always starts with positive remaining, see the
idempotence proof for C7); a tick emits at most one alert, and the
start/pause/resume button and reset never emit one. -/
theorem claim6_alert (s : AppState) (r : RawSettings) (now : ℚ) :
    ((heartbeat s now).alerts = s.alerts + 1 ↔
      (s.mode = Mode.study ∨ s.mode = Mode.break') ∧ s.paused = false ∧
        remaining s now = 0) ∧
    ((heartbeat s now).alerts = s.alerts ∨ (heartbeat s now).alerts = s.alerts + 1) ∧
    ((on_start_pause_resume s r now).1.alerts = s.alerts) ∧
    ((on_reset s r).alerts = s.alerts) := by
  have hrem : remaining s now = 0 ↔ pyRound (s.phase_end_monot - now) ≤ 0 := by
    simp only [remaining]
    omega
  have halert : ∀ x : AppState, ∀ t : ℚ, (advance_phase x t).alerts = x.alerts := by
    intro x t
    unfold advance_phase
    split
    · dsimp only
      split
      · rfl
      · simp [enter_break]
    · split
      · simp [enter_study]
      · rfl
  have hbtn : (on_start_pause_resume s r now).1.alerts = s.alerts := by
    unfold on_start_pause_resume
    split
    · cases hr : read_settings r with
      | none => rfl
      | some q => obtain ⟨t, p, sb, lb⟩ := q; simp [enter_study]
    · split
      · unfold pause_branch; split <;> rfl
      · unfold resume_branch; split <;> rfl
  have hrst : (on_reset s r).alerts = s.alerts := by
    unfold on_reset
    split
    · cases hr : read_settings r with
      | none => rfl
      | some q => obtain ⟨t, p, sb, lb⟩ := q; rfl
    · rfl
  refine ⟨?_, ?_, hbtn, hrst⟩
  · rw [hrem]
    unfold heartbeat
    split
    case isTrue hrun =>
      split
      case isTrue hp =>
        simp [update_bottom_with_left, hp]
      case isFalse hp =>
        dsimp only
        split
        case isTrue hdue =>
          rw [halert]
          simp [hrun, hdue]
          simpa using hp
        case isFalse hdue =>
          simp [update_bottom_with_left, hdue]
    case isFalse hrun =>
      simp [hrun]
  · unfold heartbeat
    split
    · split
      · left; rfl
      · dsimp only
        split
        · right; rw [halert]
        · left; rfl
    · left; rfl



/-- Claim C4: in every state reachable from the initial idle state by
any sequence of button presses, resets and ticks,
`done_pomodoros ≤ total_sessions`, and equality forces idle mode. -/
theorem claim4_counter_invariant (s : AppState) (h : Reachable s) :
    s.done_pomodoros ≤ s.total_sessions ∧
    (s.done_pomodoros = s.total_sessions → s.mode = Mode.idle) := by
  obtain ⟨h1, h2, h3, h4, h5, h6, h7⟩ := reachable_inv h
  refine ⟨h3, fun he => ?_⟩
  by_cases hm : s.mode = Mode.idle
  · exact hm
  · exact absurd he (by have := h7 hm; omega)

/-- Claim C5: in every reachable state the rendered progress numerator
is `done_pomodoros + 1` while in study mode and `done_pomodoros` while
in break mode, and the rendered denominator always equals
`total_sessions`. -/
theorem claim5_progress_display (s : AppState) (h : Reachable s) :
    s.bottom_den = s.total_sessions ∧
    (s.mode = Mode.study → s.bottom_num = s.done_pomodoros + 1) ∧
    (s.mode = Mode.break' → s.bottom_num = s.done_pomodoros) :=
  reachable_disp h

/-- Claim C7: the tick is idempotent at a fixed monotonic instant: for
every reachable state, a second tick at the same `now` leaves the
RunState produced by the first tick unchanged; and a tick is a no-op on
the RunState whenever the mode is idle or the phase is paused. -/
theorem claim7_tick_idempotent (s : AppState) (now : ℚ) (h : Reachable s) :
    run_of (heartbeat (heartbeat s now) now) = run_of (heartbeat s now) ∧
    ((s.mode = Mode.idle ∨ s.paused = true) → run_of (heartbeat s now) = run_of s) := by
  obtain ⟨h1, h2, h3, h4, h5, h6, h7⟩ := reachable_inv h
  have hub : ∀ (x : AppState) (l : Int), run_of (update_bottom_with_left x l) = run_of x := by
    intro x l; rfl
  constructor
  · by_cases hrun : s.mode = Mode.study ∨ s.mode = Mode.break'
    · by_cases hp : s.paused = true
      · -- paused: both ticks take the frozen-redraw branch
        have hstep : heartbeat s now = update_bottom_with_left s s.paused_left := by
          rw [heartbeat, if_pos hrun, if_pos hp]
        rw [hstep]
        have hstep2 : heartbeat (update_bottom_with_left s s.paused_left) now
            = update_bottom_with_left (update_bottom_with_left s s.paused_left)
                (update_bottom_with_left s s.paused_left).paused_left := by
          rw [heartbeat, if_pos (by simpa [update_bottom_with_left] using hrun),
            if_pos (by simpa [update_bottom_with_left] using hp)]
        rw [hstep2]
        simp only [hub]
      · have hp' : s.paused = false := by simpa using hp
        by_cases hdue : pyRound (s.phase_end_monot - now) ≤ 0
        · -- the phase boundary is crossed: the first tick advances the phase
          have hstep : heartbeat s now = advance_phase { s with alerts := s.alerts + 1 } now := by
            rw [heartbeat, if_pos hrun, if_neg hp]
            dsimp only
            rw [if_pos hdue]
          rw [hstep]
          rcases hrun with hm | hm
          · -- study phase ends
            by_cases hfin : s.total_sessions ≤ s.done_pomodoros + 1
            · have hadv : advance_phase { s with alerts := s.alerts + 1 } now =
                  { s with
                    done_pomodoros := s.done_pomodoros + 1
                    alerts := s.alerts + 1
                    mode := Mode.idle
                    lbl_status := "READY"
                    status_before_pause := "READY"
                    bottom_num := s.done_pomodoros + 1
                    bottom_den := s.total_sessions
                    bottom_time := "00:00"
                    btn_text := "Start" } := by
                rw [advance_phase, if_pos (by simpa using hm)]
                dsimp only
                rw [if_pos (by simpa using hfin)]
              rw [hadv]
              have hidle : heartbeat
                  { s with
                    done_pomodoros := s.done_pomodoros + 1
                    alerts := s.alerts + 1
                    mode := Mode.idle
                    lbl_status := "READY"
                    status_before_pause := "READY"
                    bottom_num := s.done_pomodoros + 1
                    bottom_den := s.total_sessions
                    bottom_time := "00:00"
                    btn_text := "Start" } now =
                  { s with
                    done_pomodoros := s.done_pomodoros + 1
                    alerts := s.alerts + 1
                    mode := Mode.idle
                    lbl_status := "READY"
                    status_before_pause := "READY"
                    bottom_num := s.done_pomodoros + 1
                    bottom_den := s.total_sessions
                    bottom_time := "00:00"
                    btn_text := "Start" } := by
                rw [heartbeat, if_neg (by simp)]
              rw [hidle]
            · have hadv : advance_phase { s with alerts := s.alerts + 1 } now =
                  enter_break { s with
                    alerts := s.alerts + 1
                    done_pomodoros := s.done_pomodoros + 1 } now := by
                rw [advance_phase, if_pos (by simpa using hm)]
                dsimp only
                rw [if_neg (by simpa using hfin)]
              rw [hadv]
              have hnotdue : ¬ pyRound ((enter_break { s with
                  alerts := s.alerts + 1
                  done_pomodoros := s.done_pomodoros + 1 } now).phase_end_monot - now) ≤ 0 := by
                simp only [enter_break]
                rw [add_sub_cancel_left, pyRound_intCast]
                split <;> omega
              have hstep2 : heartbeat (enter_break { s with
                  alerts := s.alerts + 1
                  done_pomodoros := s.done_pomodoros + 1 } now) now =
                  update_bottom_with_left (enter_break { s with
                    alerts := s.alerts + 1
                    done_pomodoros := s.done_pomodoros + 1 } now)
                    (pyRound ((enter_break { s with
                      alerts := s.alerts + 1
                      done_pomodoros := s.done_pomodoros + 1 } now).phase_end_monot - now)) := by
                rw [heartbeat, if_pos (by simp [enter_break]), if_neg (by simp [enter_break])]
                dsimp only
                rw [if_neg hnotdue]
              rw [hstep2, hub]
          · -- break phase ends
            have hadv : advance_phase { s with alerts := s.alerts + 1 } now =
                enter_study { s with alerts := s.alerts + 1 } now := by
              rw [advance_phase, if_neg (by simp [hm]), if_pos (by simpa using hm)]
            rw [hadv]
            have hnotdue : ¬ pyRound ((enter_study { s with alerts := s.alerts + 1 } now).phase_end_monot - now) ≤ 0 := by
              simp only [enter_study]
              rw [add_sub_cancel_left, pyRound_intCast]
              omega
            have hstep2 : heartbeat (enter_study { s with alerts := s.alerts + 1 } now) now =
                update_bottom_with_left (enter_study { s with alerts := s.alerts + 1 } now)
                  (pyRound ((enter_study { s with alerts := s.alerts + 1 } now).phase_end_monot - now)) := by
              rw [heartbeat, if_pos (by simp [enter_study]), if_neg (by simp [enter_study])]
              dsimp only
              rw [if_neg hnotdue]
            rw [hstep2, hub]
        · -- no boundary: redraw only, twice
          have hstep : heartbeat s now
              = update_bottom_with_left s (pyRound (s.phase_end_monot - now)) := by
            rw [heartbeat, if_pos hrun, if_neg hp]
            dsimp only
            rw [if_neg hdue]
          rw [hstep]
          have hstep2 : heartbeat (update_bottom_with_left s (pyRound (s.phase_end_monot - now))) now
              = update_bottom_with_left (update_bottom_with_left s (pyRound (s.phase_end_monot - now)))
                  (pyRound ((update_bottom_with_left s (pyRound (s.phase_end_monot - now))).phase_end_monot - now)) := by
            rw [heartbeat, if_pos (by simpa [update_bottom_with_left] using hrun),
              if_neg (by simpa [update_bottom_with_left] using hp)]
            dsimp only
            rw [if_neg (by simpa [update_bottom_with_left] using hdue)]
          rw [hstep2]
          simp only [hub]
    · have hs' : heartbeat s now = s := by rw [heartbeat, if_neg hrun]
      rw [hs', hs']
  · intro hcase
    rcases hcase with hm | hp
    · rw [heartbeat, if_neg (by simp [hm])]
    · by_cases hrun : s.mode = Mode.study ∨ s.mode = Mode.break'
      · rw [heartbeat, if_pos hrun, if_pos hp, hub]
      · rw [heartbeat, if_neg hrun]



/-- Claim C10: on the tick that completes the final study phase only
the mode (and the already-false paused flag) are reset:
`done_pomodoros` ends equal to `total_sessions` (it is not zeroed), the
stored configuration is untouched, and the progress rendered in idle is
`total_sessions`/`total_sessions`; moreover a tick never zeroes a
non-zero `done_pomodoros`, and the button in a non-idle state (pause or
resume) never changes it — it is reset to 0 only by an explicit reset
or by the next start from idle. -/
theorem claim10_completion_frame (s : AppState) (r : RawSettings) (now : ℚ)
    (h : Reachable s) :
    (s.mode = Mode.study → s.paused = false →
      s.total_sessions ≤ s.done_pomodoros + 1 →
      pyRound (s.phase_end_monot - now) ≤ 0 →
        (heartbeat s now).mode = Mode.idle ∧
        (heartbeat s now).paused = false ∧
        (heartbeat s now).done_pomodoros = s.total_sessions ∧
        (heartbeat s now).total_sessions = s.total_sessions ∧
        (heartbeat s now).pomo_min = s.pomo_min ∧
        (heartbeat s now).short_min = s.short_min ∧
        (heartbeat s now).long_min = s.long_min ∧
        (heartbeat s now).bottom_num = s.total_sessions ∧
        (heartbeat s now).bottom_den = s.total_sessions) ∧
    (s.done_pomodoros ≠ 0 → (heartbeat s now).done_pomodoros ≠ 0) ∧
    (s.mode ≠ Mode.idle →
      (on_start_pause_resume s r now).1.done_pomodoros = s.done_pomodoros) := by
  obtain ⟨h1, h2, h3, h4, h5, h6, h7⟩ := reachable_inv h
  refine ⟨?_, ?_, ?_⟩
  · intro hm hp hfin hdue
    have hlt : s.done_pomodoros < s.total_sessions := h7 (by simp [hm])
    have heq : s.done_pomodoros + 1 = s.total_sessions := by omega
    have hstep : heartbeat s now = advance_phase { s with alerts := s.alerts + 1 } now := by
      rw [heartbeat, if_pos (Or.inl hm), if_neg (by simp [hp])]
      dsimp only
      rw [if_pos hdue]
    rw [hstep]
    have hadv : advance_phase { s with alerts := s.alerts + 1 } now =
        { s with
          done_pomodoros := s.done_pomodoros + 1
          alerts := s.alerts + 1
          mode := Mode.idle
          lbl_status := "READY"
          status_before_pause := "READY"
          bottom_num := s.done_pomodoros + 1
          bottom_den := s.total_sessions
          bottom_time := "00:00"
          btn_text := "Start" } := by
      rw [advance_phase, if_pos (by simpa using hm)]
      dsimp only
      rw [if_pos (by simpa using hfin)]
    rw [hadv]
    exact ⟨rfl, hp, heq, rfl, rfl, rfl, rfl, heq, rfl⟩
  · intro hne
    have : s.done_pomodoros ≤ (heartbeat s now).done_pomodoros := by
      rw [heartbeat]
      split
      · split
        · exact le_refl _
        · dsimp only
          split
          · rw [advance_phase]
            split
            · dsimp only
              split
              · simp
              · simp [enter_break]
            · split
              · simp [enter_study]
              · exact le_refl _
          · exact le_refl _
      · exact le_refl _
    omega
  · intro hnid
    unfold on_start_pause_resume
    rw [if_neg hnid]
    split
    · unfold pause_branch
      split <;> rfl
    · unfold resume_branch
      split <;> rfl

/-- Claim C8 (amended): pause and resume are reachable only through the
single start/pause/resume entry point, which dispatches on the paused
flag — invoked while paused it performs the resume branch, while
running un-paused the pause branch, and it never reports an error; the
branches themselves are guarded only by mode: invoked in the wrong
sub-state they are not no-ops, since the pause body re-freezes
`max(0, round(deadline - now))` and the resume body recomputes the
deadline from the stored frozen value. -/
theorem claim8_amended_dispatch (s : AppState) (r : RawSettings) (now : ℚ)
    (hmode : s.mode = Mode.study ∨ s.mode = Mode.break') :
    (s.paused = true → (on_start_pause_resume s r now).1 = resume_branch s now) ∧
    (s.paused = false → (on_start_pause_resume s r now).1 = pause_branch s now) ∧
    ((on_start_pause_resume s r now).2 = false) ∧
    (pause_branch s now).paused_left = max 0 (pyRound (s.phase_end_monot - now)) ∧
    (pause_branch s now).paused = true ∧
    (resume_branch s now).phase_end_monot = now + ((s.paused_left : ℤ) : ℚ) ∧
    (resume_branch s now).paused = false := by
  have hnid : ¬ s.mode = Mode.idle := by rcases hmode with h | h <;> simp [h]
  have hpb : ∀ t : ℚ, pause_branch s t =
      { s with
        paused_left := max 0 (pyRound (s.phase_end_monot - t))
        paused := true
        status_before_pause := if s.mode = Mode.study then "STUDY" else "BREAK"
        lbl_status := "PAUSE"
        btn_text := "Resume" } := by
    intro t; rw [pause_branch, if_pos hmode]
  have hrb : ∀ t : ℚ, resume_branch s t =
      { s with
        phase_end_monot := t + ((s.paused_left : ℤ) : ℚ)
        paused := false
        lbl_status := s.status_before_pause
        btn_text := "Pause" } := by
    intro t; rw [resume_branch, if_pos hmode]
  refine ⟨?_, ?_, ?_, ?_, ?_, ?_, ?_⟩
  · intro hp
    unfold on_start_pause_resume
    rw [if_neg hnid, if_neg (by simp [hp])]
  · intro hp
    unfold on_start_pause_resume
    rw [if_neg hnid, if_pos hp]
  · unfold on_start_pause_resume
    rw [if_neg hnid]
    split <;> rfl
  · rw [hpb]
  · rw [hpb]
  · rw [hrb]
  · rw [hrb]



theorem pad2_length_of_lt {n : Nat} (h : n < 100) : (pad2 n).length = 2 := by
  have hall : ∀ m : Nat, m < 100 → (pad2 m).length = 2 := by decide
  exact hall n h

/-- Claim C9 counterexample: the formatters zero-pad to a minimum of
two digits but do not truncate, so at 6000 seconds (100 minutes) the
countdown is `100:00` (6 characters, not `MM:SS`), and a progress
numerator of 100 yields `100/12`. -/
theorem claim9_cex :
    fmt_mm_ss 6000 = "100:00" ∧ (fmt_mm_ss 6000).length ≠ 5 ∧
    fmt_progress 100 12 = "100/12" ∧ (fmt_progress 100 12).length ≠ 5 := by
  refine ⟨rfl, by decide, rfl, by decide⟩

/-- Claim C9 (amended): the countdown formatter clamps negative inputs
to 0 (output `00:00`) and formats the clamped value's minutes and
seconds zero-padded to a minimum of two digits; both fields are exactly
two digits (a five-character `MM:SS` string) whenever the clamped value
is below 6000 seconds; the progress formatter clamps negatives to 0 and
produces a five-character `NN/DD` string when both values are below
100. -/
theorem claim9_amended (n a b : Int) :
    (n < 0 → fmt_mm_ss n = "00:00") ∧
    (fmt_mm_ss n = pad2 ((max 0 n) / 60).toNat ++ ":" ++ pad2 ((max 0 n) % 60).toNat) ∧
    (max 0 n < 6000 →
      (pad2 ((max 0 n) / 60).toNat).length = 2 ∧
      (pad2 ((max 0 n) % 60).toNat).length = 2 ∧
      (fmt_mm_ss n).length = 5) ∧
    (a < 0 → fmt_progress a b = fmt_progress 0 b) ∧
    (0 ≤ a → a < 100 → 0 ≤ b → b < 100 → (fmt_progress a b).length = 5) := by
  have hite : (if n < 0 then 0 else n) = max 0 n := by split <;> omega
  have heqn : fmt_mm_ss n = pad2 ((max 0 n) / 60).toNat ++ ":" ++ pad2 ((max 0 n) % 60).toNat := by
    simp only [fmt_mm_ss, hite]
  refine ⟨?_, heqn, ?_, ?_, ?_⟩
  · intro hneg
    have hz : max 0 n = 0 := by omega
    rw [heqn, hz]
    rfl
  · intro hlt
    have hm : ((max 0 n) / 60).toNat < 100 := by omega
    have hs : ((max 0 n) % 60).toNat < 100 := by omega
    have lm := pad2_length_of_lt hm
    have ls := pad2_length_of_lt hs
    refine ⟨lm, ls, ?_⟩
    rw [heqn, String.length_append, String.length_append, lm, ls]
    rfl
  · intro hneg
    have hz : max 0 a = 0 := by omega
    simp only [fmt_progress, hz, max_self]
  · intro ha0 ha hb0 hb
    have la := pad2_length_of_lt (n := a.toNat) (by omega)
    have lb := pad2_length_of_lt (n := b.toNat) (by omega)
    have hma : max 0 a = a := by omega
    have hmb : max 0 b = b := by omega
    simp only [fmt_progress, hma, hmb]
    rw [String.length_append, String.length_append, la, lb]
    rfl




theorem sRun_paused : sRun.paused = false := rfl
theorem sRun_paused_left : sRun.paused_left = 0 := rfl
theorem sRun_reachable : Reachable sRun := Reachable.button raw12 0 Reachable.init
theorem sP_paused : sP.paused = true := rfl
theorem sP_reachable : Reachable sP := Reachable.button raw12 0 sRun_reachable

theorem sP_phase_end : sP.phase_end_monot = 1500 := by
  have h : sP.phase_end_monot = sRun.phase_end_monot := rfl
  rw [h, sRun_phase_end]

theorem sP_paused_left : sP.paused_left = 1500 := by
  have h : sP.paused_left = max 0 (pyRound (sRun.phase_end_monot - 0)) := rfl
  rw [h, sRun_phase_end, sub_zero]
  rw [show ((1500:ℚ)) = (((1500:ℤ)):ℚ) by norm_num, pyRound_intCast]
  decide

theorem sOne_phase_end : sOne.phase_end_monot = 60 := by
  simp [sOne, on_start_pause_resume, read_settings, raw11, init, enter_study]

theorem sOne_reachable : Reachable sOne := Reachable.button raw11 0 Reachable.init

-- C8 counterexample
/-- Claim C8 counterexample: at the reachable paused state `sP`
(paused with frozen remaining 1500) invoking the pause body again at a
later instant re-freezes the remaining value (1500 becomes 0), and at
the reachable running state `sRun` invoking the resume body recomputes
the deadline from the stale frozen value (1500 becomes 100): neither
wrong-sub-state invocation is a no-op on RunState. -/
theorem claim8_cex :
    Reachable sP ∧ sP.paused = true ∧
    (pause_branch sP 1500).paused_left ≠ sP.paused_left ∧
    Reachable sRun ∧ sRun.paused = false ∧
    (resume_branch sRun 100).phase_end_monot ≠ sRun.phase_end_monot := by
  refine ⟨sP_reachable, sP_paused, ?_, sRun_reachable, sRun_paused, ?_⟩
  · have h : (pause_branch sP 1500).paused_left
        = max 0 (pyRound (sP.phase_end_monot - 1500)) := rfl
    rw [h, sP_phase_end, sub_self, pyRound_zero, sP_paused_left]
    decide
  · have h : (resume_branch sRun 100).phase_end_monot
        = 100 + ((sRun.paused_left : ℤ) : ℚ) := rfl
    rw [h, sRun_paused_left, sRun_phase_end]
    norm_num

-- witnesses
/-- Witness for C1: starting the default 12-session run at 0 and
ticking at the study deadline 1500 completes session `k = 1`
(`1 % 5 ≠ 0`), entering a short break of `5*60` seconds. -/
theorem claim1_witness :
    sRun.done_pomodoros + 1 < sRun.total_sessions ∧
    (heartbeat sRun 1500).mode = Mode.break' ∧
    (heartbeat sRun 1500).phase_end_monot = 1500 +
      (((if (sRun.done_pomodoros + 1) % 5 = 0 then sRun.long_min else sRun.short_min) * 60 : ℤ) : ℚ) :=
  ⟨by decide,
   (claim1_break_cadence sRun 1500 rfl rfl (tick_guard_eq sRun_phase_end)).1 (by decide)⟩

/-- Witness for C2: starting from the initial state with a session
count of 0 is rejected and changes nothing. -/
theorem claim2_witness :
    init.mode = Mode.idle ∧ read_settings rawBad = none ∧
    on_start_pause_resume init rawBad 0 = (init, true) :=
  ⟨rfl, by decide, (claim2_invalid_config init rawBad 0 rfl).2 (by decide)⟩

/-- Witness for C3: pausing the default run at instant 10 and resuming
at instant 50 preserves the frozen remaining value exactly. -/
theorem claim3_witness :
    sRun.mode = Mode.study ∧ sRun.paused = false ∧ (10 : ℚ) ≤ 50 ∧
    ((on_start_pause_resume sRun raw12 10).1.paused_left = remaining sRun 10 ∧
     (on_start_pause_resume (on_start_pause_resume sRun raw12 10).1 raw12 50).1.paused = false ∧
     remaining (on_start_pause_resume (on_start_pause_resume sRun raw12 10).1 raw12 50).1 50
       = remaining sRun 10) :=
  ⟨rfl, rfl, by norm_num,
   claim3_round_trip sRun raw12 raw12 10 50 (Or.inl rfl) rfl (by norm_num)⟩

/-- Witness for C4 at the initial state, where
`done_pomodoros = total_sessions = 0` and the mode is idle. -/
theorem claim4_witness :
    init.done_pomodoros ≤ init.total_sessions ∧ init.mode = Mode.idle :=
  ⟨(claim4_counter_invariant init Reachable.init).1,
   (claim4_counter_invariant init Reachable.init).2 rfl⟩

/-- Witness for C5 at the reachable running state `sRun`: the display
shows session 1 of 12. -/
theorem claim5_witness :
    sRun.bottom_den = sRun.total_sessions ∧
    sRun.bottom_num = sRun.done_pomodoros + 1 :=
  ⟨(claim5_progress_display sRun sRun_reachable).1,
   (claim5_progress_display sRun sRun_reachable).2.1 rfl⟩

/-- Witness for C7 at the initial state: ticking twice at instant 0
equals ticking once, and the idle tick is a RunState no-op. -/
theorem claim7_witness :
    run_of (heartbeat (heartbeat init 0) 0) = run_of (heartbeat init 0) ∧
    run_of (heartbeat init 0) = run_of init :=
  ⟨(claim7_tick_idempotent init 0 Reachable.init).1,
   (claim7_tick_idempotent init 0 Reachable.init).2 (Or.inl rfl)⟩

/-- Witness for C8 (amended) at the reachable paused state `sP`: the
button dispatches to the resume branch without error, and the branch
bodies behave as described. -/
theorem claim8_amended_witness :
    (on_start_pause_resume sP raw12 5).1 = resume_branch sP 5 ∧
    ((on_start_pause_resume sP raw12 5).2 = false) ∧
    (pause_branch sP 5).paused_left = max 0 (pyRound (sP.phase_end_monot - 5)) ∧
    (pause_branch sP 5).paused = true ∧
    (resume_branch sP 5).phase_end_monot = 5 + ((sP.paused_left : ℤ) : ℚ) ∧
    (resume_branch sP 5).paused = false :=
  ⟨(claim8_amended_dispatch sP raw12 5 (Or.inl rfl)).1 rfl,
   (claim8_amended_dispatch sP raw12 5 (Or.inl rfl)).2.2.1,
   (claim8_amended_dispatch sP raw12 5 (Or.inl rfl)).2.2.2.1,
   (claim8_amended_dispatch sP raw12 5 (Or.inl rfl)).2.2.2.2.1,
   (claim8_amended_dispatch sP raw12 5 (Or.inl rfl)).2.2.2.2.2.1,
   (claim8_amended_dispatch sP raw12 5 (Or.inl rfl)).2.2.2.2.2.2⟩

/-- Witness for C9 (amended): `-7` seconds clamps to `00:00`, `125`
seconds formats as a five-character string, a negative progress
numerator clamps to 0, and `03/12` has five characters. -/
theorem claim9_amended_witness :
    ((-7 : ℤ) < 0) ∧ fmt_mm_ss (-7) = "00:00" ∧
    (max 0 (125 : ℤ) < 6000) ∧ (fmt_mm_ss 125).length = 5 ∧
    ((-3 : ℤ) < 0) ∧ fmt_progress (-3) 12 = fmt_progress 0 12 ∧
    (fmt_progress 3 12).length = 5 :=
  ⟨by decide, (claim9_amended (-7) 0 0).1 (by decide),
   by decide, ((claim9_amended 125 0 0).2.2.1 (by decide)).2.2,
   by decide, (claim9_amended 0 (-3) 12).2.2.2.1 (by decide),
   (claim9_amended 0 3 12).2.2.2.2 (by decide) (by decide) (by decide) (by decide)⟩

/-- Witness for C10: the single-session run `sOne` ticked at its
deadline 60 goes idle with `done = total = 1` and progress 1/1. -/
theorem claim10_witness :
    (heartbeat sOne 60).mode = Mode.idle ∧
    (heartbeat sOne 60).paused = false ∧
    (heartbeat sOne 60).done_pomodoros = sOne.total_sessions ∧
    (heartbeat sOne 60).bottom_num = sOne.total_sessions ∧
    (heartbeat sOne 60).bottom_den = sOne.total_sessions := by
  have H := (claim10_completion_frame sOne raw11 60 sOne_reachable).1 rfl rfl
    (by decide) (tick_guard_eq sOne_phase_end)
  exact ⟨H.1, H.2.1, H.2.2.1, H.2.2.2.2.2.2.2.1, H.2.2.2.2.2.2.2.2⟩

end Pomodoro
